import Mathlib

/-!
# Verification of the drought-index drivers (`indices.py`)

Shallow embedding of the single-time-series drought-index drivers:
`spi_gamma`, `spi_pearson`, `spei_gamma`, `spei_pearson`,
`percentage_of_normal` and `pet`, together with the Scaler and the two
distribution fitter/transformers they call.

Modelling conventions:
* A monthly series is a `List (Option ℝ)`; `none` is the missing-value
  marker (NaN in the source).
* Optional function arguments (numpy arrays or scalars that may be `None`)
  are `Option _`; the source's `x != None` checks are `Option.isSome`.
* Raising an exception is returning `Except.error`; `IndicesError`
  distinguishes the `ValueError`s raised by explicit validation from the
  `TypeError` that arises when `None` reaches an arithmetic operation.
* numpy elementwise arithmetic on two arrays requires equal lengths;
  a length mismatch is an error (numpy raises a broadcast `ValueError`).
* The external Thornthwaite collaborator is a function parameter `thw`.
-/

namespace Indices

/-- Sum of a list of possibly-missing values: missing in, missing out. -/
def optSum (l : List (Option ℝ)) : Option ℝ :=
  l.foldr (fun a acc => Option.map₂ (· + ·) a acc) (some 0)

/-- `np.nanmean`: the mean of the non-missing entries, missing (`none`)
when every entry is missing or the list is empty. -/
noncomputable def nanmean (l : List (Option ℝ)) : Option ℝ :=
  let xs := l.filterMap id
  if xs.length = 0 then none else some (xs.sum / xs.length)

/-- Python extended slice `l[start::k]` (for `k ≥ 1`): the elements at
indices `start, start + k, start + 2k, …`. -/
def stride (l : List (Option ℝ)) (start k : ℕ) : List (Option ℝ) :=
  (List.range ((l.length - start + (k - 1)) / k)).map
    (fun j => l.getD (start + j * k) none)

/-- Python slice `l[a:b]` with full Python index semantics: negative
indices count from the end, and both bounds are clamped to the list. -/
def pySlice {α : Type} (l : List α) (a b : ℤ) : List α :=
  let n : ℤ := l.length
  let lo := (if a < 0 then max 0 (n + a) else min a n).toNat
  let hi := (if b < 0 then max 0 (n + b) else min b n).toNat
  (l.drop lo).take (hi - lo)

/-- `indices.py` line 20: `_FITTED_INDEX_VALID_MIN = -3.09`. -/
def _FITTED_INDEX_VALID_MIN : ℝ := -3.09

/-- `indices.py` line 21: `_FITTED_INDEX_VALID_MAX = 3.09`. -/
def _FITTED_INDEX_VALID_MAX : ℝ := 3.09

/-- `np.clip(x, lo, hi)` on a single non-missing value. -/
noncomputable def clipValue (x : ℝ) : ℝ :=
  max _FITTED_INDEX_VALID_MIN (min _FITTED_INDEX_VALID_MAX x)

/-- Modelled from the spec: `compute.sum_to_scale` (the Scaler, §4.1),
whose source is not part of this repository snapshot.  Output has the
length of the input; index `i < scale - 1` is missing; index
`i ≥ scale - 1` is the sum of the trailing `scale` entries ending at `i`,
missing if any contributing entry is missing. -/
def sum_to_scale (l : List (Option ℝ)) (scale : ℕ) : List (Option ℝ) :=
  List.ofFn (fun i : Fin l.length =>
    if (i : ℕ) + 1 < scale then none
    else optSum ((List.range scale).map (fun j => l.getD ((i : ℕ) + 1 - scale + j) none)))

/-- Values of calendar month `m` (`0 ≤ m < 12`) drawn from a monthly
series: the elements at indices congruent to `m` modulo 12 (`l[m::12]`). -/
def monthGroup (l : List (Option ℝ)) (m : ℕ) : List (Option ℝ) :=
  stride l m 12

/-- Modelled from the spec: the minimum number of positive samples below
which the gamma fit for a calendar month is degenerate.  The spec (§9)
leaves this implementation constant open; its value is irrelevant to the
claims proved here. -/
def _GAMMA_MIN_POSITIVE_COUNT : ℕ := 4

/-- Population variance of a list of reals (used for the degenerate-fit
check of the gamma fitter). -/
noncomputable def listVariance (xs : List ℝ) : ℝ :=
  let μ := xs.sum / xs.length
  (xs.map (fun x => (x - μ) ^ 2)).sum / xs.length

/-- Modelled from the spec: gamma CDF with shape `a` and scale `b`
(`scipy.stats.gamma.cdf`), via Mathlib's gamma distribution (rate `1/b`). -/
noncomputable def gammaCDF (a b x : ℝ) : ℝ :=
  ProbabilityTheory.gammaCDFReal a (1 / b) x

/-- Modelled from the spec: the standard normal CDF. -/
noncomputable def stdNormCDF (x : ℝ) : ℝ :=
  (ProbabilityTheory.gaussianReal 0 1 (Set.Iic x)).toReal

/-- Modelled from the spec: the standard-normal quantile function
(inverse normal CDF, `scipy.stats.norm.ppf`). -/
noncomputable def invNormCDF (p : ℝ) : ℝ :=
  sInf {x : ℝ | p ≤ stdNormCDF x}

/-- Modelled from the spec (§4.2): per-calendar-month gamma parameter
estimation with zero handling.  Returns `(p_zero, α, β)`, or `none` for a
degenerate fit (too few positive samples, or zero variance). -/
noncomputable def gammaFitMonth (vals : List (Option ℝ)) : Option (ℝ × ℝ × ℝ) :=
  let xs := vals.filterMap id
  let positives := xs.filter (fun x => decide (0 < x))
  let pZero : ℝ := (xs.length - positives.length : ℕ) / xs.length
  if positives.length < _GAMMA_MIN_POSITIVE_COUNT ∨ listVariance positives = 0 then none
  else
    let μ := positives.sum / positives.length
    let A := Real.log μ - (positives.map Real.log).sum / positives.length
    let α := (1 + Real.sqrt (1 + 4 * A / 3)) / (4 * A)
    some (pZero, α, μ / α)

/-- Modelled from the spec (§4.2): the per-value gamma transform — mixed
cumulative probability `p_zero + (1 - p_zero)·GammaCDF(v; α, β)` (just
`p_zero` at `v = 0`), then the standard-normal quantile.  Missing values
and degenerate fits give missing output. -/
noncomputable def gammaTransformElem (fit : Option (ℝ × ℝ × ℝ)) (v : Option ℝ) : Option ℝ :=
  match v, fit with
  | none, _ => none
  | _, none => none
  | some v, some (p0, a, b) =>
      some (invNormCDF (if v = 0 then p0 else p0 + (1 - p0) * gammaCDF a b v))

/-- Modelled from the spec: `compute.transform_fitted_gamma` (§4.2),
whose source is not part of this repository snapshot.  Parameters are
fitted per calendar month from the whole series; every value is
transformed; output keeps the original layout. -/
noncomputable def transform_fitted_gamma (scaled : List (Option ℝ)) : List (Option ℝ) :=
  List.ofFn (fun i : Fin scaled.length =>
    gammaTransformElem (gammaFitMonth (monthGroup scaled ((i : ℕ) % 12)))
      (scaled.getD (i : ℕ) none))

/-- Modelled from the spec: the near-zero-skew threshold of the Pearson
III transform, an open implementation constant (§9) irrelevant to the
claims proved here. -/
def _PEARSON_SKEW_THRESHOLD : ℝ := 1e-3

/-- Modelled from the spec: the boundary cumulative probability used by
the Pearson III transform when the value falls outside the support, an
open implementation constant irrelevant to the claims proved here. -/
def _PEARSON_BOUNDARY_PROBABILITY : ℝ := 5e-4

/-- Modelled from the spec (§4.3): per-calendar-month sample moments
(mean, standard deviation, skew) of the calibration-period values;
`none` when there are no non-missing samples. -/
noncomputable def pearsonFitMonth (vals : List (Option ℝ)) : Option (ℝ × ℝ × ℝ) :=
  let xs := vals.filterMap id
  if xs.length = 0 then none
  else
    let μ := xs.sum / xs.length
    let σ := Real.sqrt (listVariance xs)
    let skew := ((xs.map (fun x => (x - μ) ^ 3)).sum / xs.length) / σ ^ 3
    some (μ, σ, skew)

/-- Modelled from the spec (§4.3): the per-value Pearson III transform —
near-zero skew falls back to the normal z-score; otherwise the incomplete
gamma relation with tail mirroring for negative `β`, then the
standard-normal quantile. -/
noncomputable def pearsonTransformElem (fit : Option (ℝ × ℝ × ℝ)) (v : Option ℝ) : Option ℝ :=
  match v, fit with
  | none, _ => none
  | _, none => none
  | some v, some (μ, σ, skew) =>
      if |skew| < _PEARSON_SKEW_THRESHOLD then some ((v - μ) / σ)
      else
        let α := 4 / skew ^ 2
        let β := (if skew < 0 then -1 else 1) * σ / 2 * Real.sqrt α
        let y := (v - (μ - α * β)) / β
        let P :=
          if 0 < β then
            (if 0 < y then gammaCDF α 1 y else _PEARSON_BOUNDARY_PROBABILITY)
          else
            1 - (if 0 < -y then gammaCDF α 1 (-y) else _PEARSON_BOUNDARY_PROBABILITY)
        some (invNormCDF P)

/-- Modelled from the spec: `compute.transform_fitted_pearson` (§4.3),
whose source is not part of this repository snapshot.  Moments are
estimated per calendar month from the calibration period only; the
transform is applied to every value of the full series. -/
noncomputable def transform_fitted_pearson (scaled : List (Option ℝ))
    (data_start_year calibration_year_initial calibration_year_final : ℤ) :
    List (Option ℝ) :=
  let calibStart := (calibration_year_initial - data_start_year) * 12
  let calib := pySlice scaled calibStart
    (calibStart + (calibration_year_final - calibration_year_initial + 1) * 12)
  List.ofFn (fun i : Fin scaled.length =>
    pearsonTransformElem (pearsonFitMonth (monthGroup calib ((i : ℕ) % 12)))
      (scaled.getD (i : ℕ) none))

/-- The errors the drivers can raise.  All validation errors of
`indices.py` are Python `ValueError`s; `subtractNoneTypeError` is the
`TypeError` raised when the unchecked `None` PET argument reaches the
`(precips_mm - pet_mm)` subtraction; `broadcastMismatch` is numpy's
error for elementwise arithmetic on arrays of different lengths. -/
inductive IndicesError where
  | incompatibleTempsAndPet
  | missingLatitudeOrStartYear
  | incompatiblePrecipTempLengths
  | extraneousLatitudeOrStartYear
  | incompatiblePrecipPetLengths
  | invalidLatitude (lat : Option ℝ)
  | calibrationStartBeforeDataStart
  | calibrationSpanExceedsData
  | subtractNoneTypeError
  | broadcastMismatch

/-- Whether an error is a Python `ValueError` (as opposed to the
`TypeError` from subtracting `None`). -/
def IndicesError.isValueError : IndicesError → Bool
  | .subtractNoneTypeError => false
  | _ => true

/-- A Thornthwaite collaborator: temperatures (°C), latitude (degrees),
data start year ↦ PET series (mm/month).  External to this repository. -/
def ThwFun : Type := List (Option ℝ) → ℝ → ℤ → List (Option ℝ)

/-- `indices.py` lines 468-497, `pet`: if the temperatures are not all
missing, require a non-missing latitude strictly between -90 and 90 and
delegate to the Thornthwaite collaborator `thw`; raise a `ValueError`
otherwise; if all temperatures are missing, return the input unchanged. -/
noncomputable def pet (thw : ThwFun) (temperature_monthly_celsius : List (Option ℝ))
    (latitude_degrees : Option ℝ) (data_start_year : ℤ) :
    Except IndicesError (List (Option ℝ)) :=
  if ¬ (temperature_monthly_celsius.all (fun t => t.isNone)) then
    match latitude_degrees with
    | some lat =>
        if lat < 90.0 ∧ -90.0 < lat then
          .ok (thw temperature_monthly_celsius lat data_start_year)
        else .error (.invalidLatitude latitude_degrees)
    | none => .error (.invalidLatitude latitude_degrees)
  else
    .ok temperature_monthly_celsius

/-- `indices.py` lines 36-49, body of `spi_gamma`: Scaler, gamma
fit/transform, clip to `[-3.09, 3.09]`, return the original length. -/
noncomputable def spi_gamma (precips : List (Option ℝ)) (months_scale : ℕ) :
    List (Option ℝ) :=
  let original_length := precips.length
  let scaled_precips := sum_to_scale precips months_scale
  let transformed_fitted_values := transform_fitted_gamma scaled_precips
  let spi := transformed_fitted_values.map (Option.map clipValue)
  spi.take original_length

/-- `indices.py` lines 70-90, body of `spi_pearson`: Scaler, Pearson III
fit/transform over the calibration window, clip, original length. -/
noncomputable def spi_pearson (precips : List (Option ℝ)) (months_scale : ℕ)
    (data_start_year : ℤ) (calibration_year_initial calibration_year_final : ℤ) :
    List (Option ℝ) :=
  let original_length := precips.length
  let scaled_precips := sum_to_scale precips months_scale
  let transformed_fitted_values := transform_fitted_pearson scaled_precips
    data_start_year calibration_year_initial calibration_year_final
  let spi := transformed_fitted_values.map (Option.map clipValue)
  spi.take original_length

/-- `(precips_mm - pet_mm) + 1000.0`: numpy elementwise arithmetic, which
raises on arrays of different lengths and propagates missing values. -/
def pMinusPet (precips_mm pet_mm : List (Option ℝ)) :
    Except IndicesError (List (Option ℝ)) :=
  if precips_mm.length = pet_mm.length then
    .ok (List.zipWith (Option.map₂ (fun p e => p - e + 1000.0)) precips_mm pet_mm)
  else .error .broadcastMismatch

/-- `indices.py` lines 132-176, the argument-combination validation of
`spei_gamma`, returning the resolved PET series; the source's final
`elif` chain falls through silently when neither temperature nor PET is
supplied, so the result is an `Option`. -/
noncomputable def speiGammaValidate (thw : ThwFun) (precips_mm : List (Option ℝ))
    (pet_mm : Option (List (Option ℝ))) (temps_celsius : Option (List (Option ℝ)))
    (data_start_year : Option ℤ) (latitude_degrees : Option ℝ) :
    Except IndicesError (Option (List (Option ℝ))) :=
  match temps_celsius with
  | some temps =>
      if pet_mm.isSome then .error .incompatibleTempsAndPet
      else if latitude_degrees.isNone || data_start_year.isNone then
        .error .missingLatitudeOrStartYear
      else if precips_mm.length ≠ temps.length then .error .incompatiblePrecipTempLengths
      else
        match pet thw temps latitude_degrees (data_start_year.getD 0) with
        | .error e => .error e
        | .ok p => .ok (some p)
  | none =>
      match pet_mm with
      | some petValues =>
          if latitude_degrees.isSome || data_start_year.isSome then
            .error .extraneousLatitudeOrStartYear
          else if precips_mm.length ≠ petValues.length then
            .error .incompatiblePrecipPetLengths
          else .ok (some petValues)
      | none => .ok none

/-- `indices.py` lines 93-194, `spei_gamma`: validate the argument
combination, compute `(P - PET) + 1000`, then the same Scaler → gamma
fit/transform → clip → original-length pipeline as `spi_gamma`. -/
noncomputable def spei_gamma (thw : ThwFun) (months_scale : ℕ)
    (precips_mm : List (Option ℝ)) (pet_mm : Option (List (Option ℝ)))
    (temps_celsius : Option (List (Option ℝ))) (data_start_year : Option ℤ)
    (latitude_degrees : Option ℝ) : Except IndicesError (List (Option ℝ)) :=
  match speiGammaValidate thw precips_mm pet_mm temps_celsius data_start_year
      latitude_degrees with
  | .error e => .error e
  | .ok none => .error .subtractNoneTypeError
  | .ok (some petValues) =>
      match pMinusPet precips_mm petValues with
      | .error e => .error e
      | .ok p_minus_pet =>
          let original_length := precips_mm.length
          let scaled_values := sum_to_scale p_minus_pet months_scale
          let transformed_fitted_values := transform_fitted_gamma scaled_values
          let spei := transformed_fitted_values.map (Option.map clipValue)
          .ok (spei.take original_length)

/-- `indices.py` lines 240-284, the argument-combination validation of
`spei_pearson`; unlike `spei_gamma` its `data_start_year` is a required
positional argument, so only the latitude is checked for presence or
extraneousness. -/
noncomputable def speiPearsonValidate (thw : ThwFun) (data_start_year : ℤ)
    (precips_mm : List (Option ℝ)) (pet_mm : Option (List (Option ℝ)))
    (temps_celsius : Option (List (Option ℝ))) (latitude_degrees : Option ℝ) :
    Except IndicesError (Option (List (Option ℝ))) :=
  match temps_celsius with
  | some temps =>
      if pet_mm.isSome then .error .incompatibleTempsAndPet
      else if latitude_degrees.isNone then .error .missingLatitudeOrStartYear
      else if precips_mm.length ≠ temps.length then .error .incompatiblePrecipTempLengths
      else
        match pet thw temps latitude_degrees data_start_year with
        | .error e => .error e
        | .ok p => .ok (some p)
  | none =>
      match pet_mm with
      | some petValues =>
          if latitude_degrees.isSome then .error .extraneousLatitudeOrStartYear
          else if precips_mm.length ≠ petValues.length then
            .error .incompatiblePrecipPetLengths
          else .ok (some petValues)
      | none => .ok none

/-- `indices.py` lines 197-309, `spei_pearson`: validate the argument
combination, compute `(P - PET) + 1000`, then Scaler → Pearson III
fit/transform → clip → original-length pipeline. -/
noncomputable def spei_pearson (thw : ThwFun) (months_scale : ℕ)
    (data_start_year : ℤ) (precips_mm : List (Option ℝ))
    (pet_mm : Option (List (Option ℝ))) (temps_celsius : Option (List (Option ℝ)))
    (latitude_degrees : Option ℝ)
    (calibration_year_initial calibration_year_final : ℤ) :
    Except IndicesError (List (Option ℝ)) :=
  match speiPearsonValidate thw data_start_year precips_mm pet_mm temps_celsius
      latitude_degrees with
  | .error e => .error e
  | .ok none => .error .subtractNoneTypeError
  | .ok (some petValues) =>
      match pMinusPet precips_mm petValues with
      | .error e => .error e
      | .ok p_minus_pet =>
          let original_length := precips_mm.length
          let scaled_values := sum_to_scale p_minus_pet months_scale
          let transformed_fitted_values := transform_fitted_pearson scaled_values
            data_start_year calibration_year_initial calibration_year_final
          let spei := transformed_fitted_values.map (Option.map clipValue)
          .ok (spei.take original_length)

/-- `indices.py` lines 443-452 of `percentage_of_normal`: the calibration
slice `months_scale_sums[calibration_start_index:calibration_end_index]`
and, for calendar month `m`, `np.nanmean(calibration_period_sums[m::12])`. -/
noncomputable def ponMonthAverage (monthly_values : List (Option ℝ))
    (months_scale : ℕ) (data_start_year calibration_start_year calibration_end_year : ℤ)
    (m : ℕ) : Option ℝ :=
  let months_scale_sums := sum_to_scale monthly_values months_scale
  let calibration_years := calibration_end_year - calibration_start_year + 1
  let calibration_start_index := (calibration_start_year - data_start_year) * 12
  let calibration_end_index := calibration_start_index + calibration_years * 12
  let calibration_period_sums :=
    pySlice months_scale_sums calibration_start_index calibration_end_index
  nanmean (stride calibration_period_sums m 12)

/-- `indices.py` lines 454-465 of `percentage_of_normal`: each sum
divided by its calendar month's average when that average is positive,
missing otherwise. -/
noncomputable def ponOutput (monthly_values : List (Option ℝ)) (months_scale : ℕ)
    (data_start_year calibration_start_year calibration_end_year : ℤ) :
    List (Option ℝ) :=
  let months_scale_sums := sum_to_scale monthly_values months_scale
  List.ofFn (fun i : Fin months_scale_sums.length =>
    match ponMonthAverage monthly_values months_scale data_start_year
        calibration_start_year calibration_end_year ((i : ℕ) % 12) with
    | some avg =>
        if 0 < avg then (months_scale_sums.getD (i : ℕ) none).map (fun s => s / avg)
        else none
    | none => none)

/-- `indices.py` lines 408-465, `percentage_of_normal`: validate the
calibration window, then divide each scaled sum by its calendar month's
calibration-period average. -/
noncomputable def percentage_of_normal (monthly_values : List (Option ℝ))
    (months_scale : ℕ)
    (data_start_year calibration_start_year calibration_end_year : ℤ) :
    Except IndicesError (List (Option ℝ)) :=
  if data_start_year > calibration_start_year then
    .error .calibrationStartBeforeDataStart
  else if (calibration_end_year - calibration_start_year + 1) * 12 >
      (monthly_values.length : ℤ) then
    .error .calibrationSpanExceedsData
  else
    .ok (ponOutput monthly_values months_scale data_start_year
      calibration_start_year calibration_end_year)

/-- An output entry is a missing marker or a value within the clipped
index range. -/
def InRangeOrMissing (x : Option ℝ) : Prop :=
  x = none ∨ ∃ v, x = some v ∧
    _FITTED_INDEX_VALID_MIN ≤ v ∧ v ≤ _FITTED_INDEX_VALID_MAX

/-- A non-missing output entry lies within the valid index magnitude. -/
def WithinAbsRange (x : Option ℝ) : Prop :=
  x = none ∨ ∃ v, x = some v ∧ |v| ≤ _FITTED_INDEX_VALID_MAX

/-- The elements of a monthly series that belong to calendar month `m`:
those whose index is congruent to `m` modulo 12. -/
def monthIndexValues (l : List (Option ℝ)) (m : ℕ) : List (Option ℝ) :=
  ((List.range l.length).filter (fun j => j % 12 == m)).map (fun j => l.getD j none)

/-- The calibration-period scaled sums, claim side: the `(c1 - c0 + 1) * 12`
months of the scaled series starting at month `(c0 - dsy) * 12`. -/
noncomputable def calibrationSums (vals : List (Option ℝ)) (k : ℕ)
    (dsy c0 c1 : ℤ) : List (Option ℝ) :=
  ((sum_to_scale vals k).drop ((c0 - dsy).toNat * 12)).take ((c1 - c0 + 1).toNat * 12)

/-! ## Helper lemmas -/

lemma length_sum_to_scale (l : List (Option ℝ)) (k : ℕ) :
    (sum_to_scale l k).length = l.length := by
  simp [sum_to_scale]

lemma length_transform_fitted_gamma (l : List (Option ℝ)) :
    (transform_fitted_gamma l).length = l.length := by
  simp [transform_fitted_gamma]

lemma length_transform_fitted_pearson (l : List (Option ℝ)) (dsy c0 c1 : ℤ) :
    (transform_fitted_pearson l dsy c0 c1).length = l.length := by
  simp [transform_fitted_pearson]

lemma valid_min_le_max : _FITTED_INDEX_VALID_MIN ≤ _FITTED_INDEX_VALID_MAX := by
  unfold _FITTED_INDEX_VALID_MIN _FITTED_INDEX_VALID_MAX
  norm_num

lemma clipValue_bounds (x : ℝ) :
    _FITTED_INDEX_VALID_MIN ≤ clipValue x ∧ clipValue x ≤ _FITTED_INDEX_VALID_MAX := by
  refine ⟨le_max_left _ _, max_le valid_min_le_max (min_le_left _ _)⟩

lemma inRange_clipped_take (X : List (Option ℝ)) (n i : ℕ) :
    InRangeOrMissing (((X.map (Option.map clipValue)).take n).getD i none) := by
  rw [List.getD_eq_getD_get?, List.get?_eq_getElem?, List.getElem?_take,
    List.getElem?_map]
  by_cases hi : i < n
  · simp only [hi, if_true]
    cases hX : X[i]? with
    | none => exact Or.inl rfl
    | some y =>
        cases y with
        | none => exact Or.inl rfl
        | some v =>
            exact Or.inr ⟨clipValue v, rfl, clipValue_bounds v⟩
  · simp only [hi, if_false]
    exact Or.inl rfl

/-! ## C1: clipping of the fitted drivers -/

/-- C1: for every valid input, every value returned by `spi_gamma`,
`spi_pearson`, `spei_gamma` and `spei_pearson` lies in `[-3.09, 3.09]`
or is a missing-value marker. -/
theorem claim1_fitted_drivers_clipped :
    (∀ precips k i, InRangeOrMissing ((spi_gamma precips k).getD i none)) ∧
    (∀ precips k dsy c0 c1 i,
      InRangeOrMissing ((spi_pearson precips k dsy c0 c1).getD i none)) ∧
    (∀ thw k precips petArg tempsArg dsyArg latArg,
      match spei_gamma thw k precips petArg tempsArg dsyArg latArg with
      | .error _ => True
      | .ok out => ∀ i, InRangeOrMissing (out.getD i none)) ∧
    (∀ thw k dsy precips petArg tempsArg latArg c0 c1,
      match spei_pearson thw k dsy precips petArg tempsArg latArg c0 c1 with
      | .error _ => True
      | .ok out => ∀ i, InRangeOrMissing (out.getD i none)) := by
  refine ⟨?_, ?_, ?_, ?_⟩
  · intro precips k i
    exact inRange_clipped_take _ _ _
  · intro precips k dsy c0 c1 i
    exact inRange_clipped_take _ _ _
  · intro thw k precips petArg tempsArg dsyArg latArg
    unfold spei_gamma
    split
    · trivial
    · rename_i out heq
      split at heq
      · simp at heq
      · simp at heq
      · split at heq
        · simp at heq
        · cases heq
          intro i
          exact inRange_clipped_take _ _ _
  · intro thw k dsy precips petArg tempsArg latArg c0 c1
    unfold spei_pearson
    split
    · trivial
    · rename_i out heq
      split at heq
      · simp at heq
      · simp at heq
      · split at heq
        · simp at heq
        · cases heq
          intro i
          exact inRange_clipped_take _ _ _

/-! ## C2: length preservation of the drivers -/

/-- C2: for every valid input, `spi_gamma`, `spi_pearson`, `spei_gamma`,
`spei_pearson` and `percentage_of_normal` return an array of exactly the
length of the primary input series. -/
theorem claim2_drivers_preserve_length :
    (∀ precips k, (spi_gamma precips k).length = precips.length) ∧
    (∀ precips k dsy c0 c1,
      (spi_pearson precips k dsy c0 c1).length = precips.length) ∧
    (∀ thw k precips petArg tempsArg dsyArg latArg,
      match spei_gamma thw k precips petArg tempsArg dsyArg latArg with
      | .error _ => True
      | .ok out => out.length = precips.length) ∧
    (∀ thw k dsy precips petArg tempsArg latArg c0 c1,
      match spei_pearson thw k dsy precips petArg tempsArg latArg c0 c1 with
      | .error _ => True
      | .ok out => out.length = precips.length) ∧
    (∀ vals k dsy c0 c1,
      match percentage_of_normal vals k dsy c0 c1 with
      | .error _ => True
      | .ok out => out.length = vals.length) := by
  refine ⟨?_, ?_, ?_, ?_, ?_⟩
  · intro precips k
    simp [spi_gamma, length_transform_fitted_gamma, length_sum_to_scale]
  · intro precips k dsy c0 c1
    simp [spi_pearson, length_transform_fitted_pearson, length_sum_to_scale]
  · intro thw k precips petArg tempsArg dsyArg latArg
    unfold spei_gamma
    split
    · trivial
    · rename_i out heq
      split at heq
      · simp at heq
      · simp at heq
      · split at heq
        · simp at heq
        · rename_i p_minus_pet hp
          cases heq
          have hlen : p_minus_pet.length = precips.length := by
            unfold pMinusPet at hp
            split at hp
            · rename_i hEq
              cases hp
              simp [List.length_zipWith, hEq]
            · simp at hp
          simp [length_transform_fitted_gamma, length_sum_to_scale, hlen]
  · intro thw k dsy precips petArg tempsArg latArg c0 c1
    unfold spei_pearson
    split
    · trivial
    · rename_i out heq
      split at heq
      · simp at heq
      · simp at heq
      · split at heq
        · simp at heq
        · rename_i p_minus_pet hp
          cases heq
          have hlen : p_minus_pet.length = precips.length := by
            unfold pMinusPet at hp
            split at hp
            · rename_i hEq
              cases hp
              simp [List.length_zipWith, hEq]
            · simp at hp
          simp [length_transform_fitted_pearson, length_sum_to_scale, hlen]
  · intro vals k dsy c0 c1
    unfold percentage_of_normal
    split
    · trivial
    · rename_i out heq
      split at heq
      · simp at heq
      · split at heq
        · simp at heq
        · cases heq
          simp [ponOutput, length_sum_to_scale]

/-! ## C3: mutual exclusivity of `pet_mm` and `temps_celsius` in `spei_gamma` -/

/-- C3 (counterexample): calling `spei_gamma` with neither `pet_mm` nor
`temps_celsius` does not raise an invalid-argument `ValueError`: the
validation chain falls through silently and the call fails with a
`TypeError` when `None` reaches the `(precips_mm - pet_mm)` subtraction. -/
theorem claim3_counterexample_neither_case :
    spei_gamma (fun t _ _ => t) 1 [some (1 : ℝ)] none none none none =
      .error .subtractNoneTypeError ∧
    IndicesError.isValueError .subtractNoneTypeError = false :=
  ⟨rfl, rfl⟩

/-- C3 (amended): calling `spei_gamma` with both `pet_mm` and
`temps_celsius` supplied raises an invalid-argument `ValueError` before
any computation; calling with neither supplied raises a `TypeError` at
the `P - PET` subtraction (no validation branch covers that case), not a
descriptive invalid-argument error. -/
theorem claim3_amended_mutual_exclusivity :
    (∀ thw k precips petv tempsv dsyArg latArg,
      spei_gamma thw k precips (some petv) (some tempsv) dsyArg latArg =
        .error .incompatibleTempsAndPet ∧
      IndicesError.isValueError .incompatibleTempsAndPet = true) ∧
    (∀ thw k precips dsyArg latArg,
      spei_gamma thw k precips none none dsyArg latArg =
        .error .subtractNoneTypeError ∧
      IndicesError.isValueError .subtractNoneTypeError = false) := by
  constructor
  · intro thw k precips petv tempsv dsyArg latArg
    exact ⟨rfl, rfl⟩
  · intro thw k precips dsyArg latArg
    exact ⟨rfl, rfl⟩

/-! ## C4: PET supplied together with latitude or start year -/

/-- C4: calling `spei_gamma` with a PET series and a non-`None`
`latitude_degrees` or `data_start_year` raises an invalid-argument
`ValueError` from the validation block, before any computation: the
extraneous-arguments error when no temperature series is given, the
incompatible-arguments error when one is. -/
theorem claim4_spei_gamma_pet_with_extraneous_args
    (thw : ThwFun) (k : ℕ) (precips petv : List (Option ℝ))
    (tempsArg : Option (List (Option ℝ))) (dsyArg : Option ℤ) (latArg : Option ℝ)
    (h : latArg.isSome = true ∨ dsyArg.isSome = true) :
    spei_gamma thw k precips (some petv) tempsArg dsyArg latArg =
      .error (if tempsArg.isSome then .incompatibleTempsAndPet
              else .extraneousLatitudeOrStartYear) ∧
    IndicesError.isValueError
      (if tempsArg.isSome then .incompatibleTempsAndPet
       else .extraneousLatitudeOrStartYear) = true := by
  cases tempsArg with
  | some temps => exact ⟨rfl, rfl⟩
  | none =>
      constructor
      · have hb : (latArg.isSome || dsyArg.isSome) = true := by
          rcases h with h | h <;> simp [h]
        unfold spei_gamma speiGammaValidate
        rw [hb]
        rfl
      · rfl

/-- Witness for C4 at a concrete input: PET supplied together with a
latitude. -/
theorem claim4_witness :
    spei_gamma (fun t _ _ => t) 1 [some (1 : ℝ)] (some [some (1 : ℝ)]) none none
        (some 0) =
      .error .extraneousLatitudeOrStartYear ∧
    IndicesError.isValueError .extraneousLatitudeOrStartYear = true :=
  claim4_spei_gamma_pet_with_extraneous_args (fun t _ _ => t) 1 [some (1 : ℝ)]
    [some (1 : ℝ)] none none (some 0) (Or.inl rfl)

/-! ## C7 and C8: latitude validation in `pet` -/

/-- C7: for a temperature series that is not entirely missing, `pet`
raises an invalid-latitude `ValueError` when the latitude is missing or
lies outside the open interval `(-90, 90)`. -/
theorem claim7_pet_invalid_latitude
    (thw : ThwFun) (temps : List (Option ℝ)) (latArg : Option ℝ) (dsy : ℤ)
    (htemps : ∃ t ∈ temps, t.isSome = true)
    (hlat : latArg = none ∨ ∃ l, latArg = some l ∧ (90 ≤ l ∨ l ≤ -90)) :
    pet thw temps latArg dsy = .error (.invalidLatitude latArg) ∧
    IndicesError.isValueError (.invalidLatitude latArg) = true := by
  have hall : ¬ (temps.all (fun t => t.isNone) = true) := by
    intro hA
    obtain ⟨t, ht, hs⟩ := htemps
    have := List.all_eq_true.mp hA t ht
    cases t with
    | none => simp at hs
    | some v => simp at this
  refine ⟨?_, rfl⟩
  unfold pet
  rw [if_pos hall]
  rcases hlat with rfl | ⟨l, rfl, hl⟩
  · rfl
  · have hcond : ¬ (l < 90.0 ∧ -90.0 < l) := by
      rcases hl with hl | hl
      · rintro ⟨h1, -⟩
        norm_num at h1
        linarith
      · rintro ⟨-, h2⟩
        norm_num at h2
        linarith
    exact if_neg hcond

/-- Witness for C7: `pet(temps, 95.0, 2000)` with a non-missing
temperature raises the invalid-latitude error. -/
theorem claim7_witness :
    pet (fun t _ _ => t) [some (10 : ℝ)] (some 95) 2000 =
      .error (.invalidLatitude (some 95)) ∧
    IndicesError.isValueError (.invalidLatitude (some 95)) = true :=
  claim7_pet_invalid_latitude (fun t _ _ => t) [some (10 : ℝ)] (some 95) 2000
    ⟨some 10, by simp, rfl⟩ (Or.inr ⟨95, rfl, Or.inl (by norm_num)⟩)

/-- C8: if every temperature is missing, `pet` returns its input
unchanged without validating the latitude, for any latitude value. -/
theorem claim8_pet_all_missing_passthrough
    (thw : ThwFun) (temps : List (Option ℝ)) (latArg : Option ℝ) (dsy : ℤ)
    (h : temps.all (fun t => t.isNone) = true) :
    pet thw temps latArg dsy = .ok temps := by
  unfold pet
  rw [if_neg (not_not_intro h)]

/-- Witness for C8: an all-missing temperature series with the invalid
latitude 95 passes through unchanged. -/
theorem claim8_witness :
    pet (fun t _ _ => t) [none, none] (some (95 : ℝ)) 2000 = .ok [none, none] :=
  claim8_pet_all_missing_passthrough (fun t _ _ => t) [none, none] (some 95) 2000 rfl

/-! ## C6: calibration-window validation of `percentage_of_normal` -/

/-- C6: `percentage_of_normal` raises a `ValueError` before computing
anything when the calibration start year is before the data start year,
or when the calibration span in months exceeds the data length; otherwise
validation passes and the computation proceeds. -/
theorem claim6_pon_calibration_validation
    (vals : List (Option ℝ)) (k : ℕ) (dsy c0 c1 : ℤ) :
    (dsy > c0 → percentage_of_normal vals k dsy c0 c1 =
        .error .calibrationStartBeforeDataStart ∧
      IndicesError.isValueError .calibrationStartBeforeDataStart = true) ∧
    (dsy ≤ c0 → (c1 - c0 + 1) * 12 > (vals.length : ℤ) →
      percentage_of_normal vals k dsy c0 c1 =
        .error .calibrationSpanExceedsData ∧
      IndicesError.isValueError .calibrationSpanExceedsData = true) ∧
    (dsy ≤ c0 → (c1 - c0 + 1) * 12 ≤ (vals.length : ℤ) →
      percentage_of_normal vals k dsy c0 c1 =
        .ok (ponOutput vals k dsy c0 c1)) := by
  unfold percentage_of_normal
  refine ⟨?_, ?_, ?_⟩
  · intro h
    rw [if_pos h]
    exact ⟨rfl, rfl⟩
  · intro h1 h2
    rw [if_neg (not_lt.mpr h1), if_pos h2]
    exact ⟨rfl, rfl⟩
  · intro h1 h2
    rw [if_neg (not_lt.mpr h1), if_neg (not_lt.mpr h2)]

/-- Witness for C6: each validation branch at a concrete input. -/
theorem claim6_witness :
    (percentage_of_normal ([] : List (Option ℝ)) 1 2001 2000 2010 =
        .error .calibrationStartBeforeDataStart ∧
      IndicesError.isValueError .calibrationStartBeforeDataStart = true) ∧
    (percentage_of_normal ([] : List (Option ℝ)) 1 2000 2000 2000 =
        .error .calibrationSpanExceedsData ∧
      IndicesError.isValueError .calibrationSpanExceedsData = true) ∧
    percentage_of_normal (List.replicate 12 (none : Option ℝ)) 1 2000 2000 2000 =
      .ok (ponOutput (List.replicate 12 none) 1 2000 2000 2000) :=
  ⟨(claim6_pon_calibration_validation [] 1 2001 2000 2010).1 (by decide),
   (claim6_pon_calibration_validation [] 1 2000 2000 2000).2.1 (by decide) (by decide),
   (claim6_pon_calibration_validation (List.replicate 12 none) 1 2000 2000 2000).2.2
     (by decide) (by decide)⟩

/-! ## The calibration-period calendar-month averages, claim side -/

lemma range_filter_mod (m : ℕ) (hm : m < 12) (n : ℕ) :
    (List.range n).filter (fun j => j % 12 == m) =
      (List.range ((n - m + 11) / 12)).map (fun q => m + q * 12) := by
  induction n with
  | zero =>
      have h0 : (0 - m + 11) / 12 = 0 := by omega
      simp [h0]
  | succ n ih =>
      rw [List.range_succ, List.filter_append, ih]
      by_cases h : n % 12 = m
      · have hcnt : (n + 1 - m + 11) / 12 = (n - m + 11) / 12 + 1 := by omega
        have hf : m + ((n - m + 11) / 12) * 12 = n := by omega
        rw [hcnt, List.range_succ, List.map_append]
        simp [h, hf]
      · have hcnt : (n + 1 - m + 11) / 12 = (n - m + 11) / 12 := by omega
        rw [hcnt]
        simp [h]

/-- The source's strided slice `l[m::12]` lists exactly the calendar
month `m` entries of `l`. -/
lemma stride_eq_monthIndexValues (l : List (Option ℝ)) (m : ℕ) (hm : m < 12) :
    stride l m 12 = monthIndexValues l m := by
  unfold stride monthIndexValues
  rw [range_filter_mod m hm l.length, List.map_map]
  rfl

/-- For nonnegative ordered bounds, the Python slice `l[a:b]` is plain
drop-and-take. -/
lemma pySlice_of_nonneg {α : Type} (l : List α) {a b : ℤ} (ha : 0 ≤ a) (hab : a ≤ b) :
    pySlice l a b = (l.drop a.toNat).take (b.toNat - a.toNat) := by
  have hb : 0 ≤ b := le_trans ha hab
  unfold pySlice
  simp only [if_neg (not_lt.mpr ha), if_neg (not_lt.mpr hb)]
  apply List.ext_getElem?
  intro i
  rw [List.getElem?_take, List.getElem?_take, List.getElem?_drop, List.getElem?_drop]
  by_cases h1 : i < (b ⊓ (l.length : ℤ)).toNat - (a ⊓ (l.length : ℤ)).toNat <;>
    by_cases h2 : i < b.toNat - a.toNat
  · have hA : (a ⊓ (l.length : ℤ)).toNat = a.toNat := by omega
    rw [if_pos h1, if_pos h2, hA]
  · exact absurd (by omega : i < b.toNat - a.toNat) h2
  · rw [if_neg h1, if_pos h2]
    have he : l.length ≤ a.toNat + i := by omega
    rw [List.getElem?_eq_none he]
  · rw [if_neg h1, if_neg h2]

/-- Under a valid calibration window, the source's calendar-month average
(`np.nanmean` of a strided Python slice) is exactly the mean over the
claim-side calendar-month members of the calibration-period sums. -/
lemma ponMonthAverage_eq_claim (vals : List (Option ℝ)) (k : ℕ) (dsy c0 c1 : ℤ)
    (h1 : dsy ≤ c0) (h2 : c0 ≤ c1) (m : ℕ) (hm : m < 12) :
    ponMonthAverage vals k dsy c0 c1 m =
      nanmean (monthIndexValues (calibrationSums vals k dsy c0 c1) m) := by
  unfold ponMonthAverage calibrationSums
  dsimp only
  have ha : (0 : ℤ) ≤ (c0 - dsy) * 12 := by omega
  have hab : (c0 - dsy) * 12 ≤ (c0 - dsy) * 12 + (c1 - c0 + 1) * 12 := by omega
  rw [pySlice_of_nonneg _ ha hab, stride_eq_monthIndexValues _ m hm]
  have e1 : ((c0 - dsy) * 12).toNat = (c0 - dsy).toNat * 12 := by omega
  have e2 : ((c0 - dsy) * 12 + (c1 - c0 + 1) * 12).toNat - ((c0 - dsy) * 12).toNat =
      (c1 - c0 + 1).toNat * 12 := by omega
  rw [e2, e1]

/-- Entry `i` of the `percentage_of_normal` output, in terms of the
calendar-month average and the scaled sums. -/
lemma ponOutput_getElem? (vals : List (Option ℝ)) (k : ℕ) (dsy c0 c1 : ℤ)
    (i : ℕ) (hi : i < vals.length) :
    (ponOutput vals k dsy c0 c1)[i]? = some (
      match ponMonthAverage vals k dsy c0 c1 (i % 12) with
      | some avg =>
          if 0 < avg then ((sum_to_scale vals k).getD i none).map (fun s => s / avg)
          else none
      | none => none) := by
  unfold ponOutput
  rw [List.getElem?_ofFn]
  have hi' : i < (sum_to_scale vals k).length := by
    rw [length_sum_to_scale]
    exact hi
  simp [List.ofFnNthVal, hi']

/-- A scale-1 moving sum is the identity. -/
lemma sum_to_scale_one (l : List (Option ℝ)) : sum_to_scale l 1 = l := by
  unfold sum_to_scale
  apply List.ext_getElem?
  intro i
  rw [List.getElem?_ofFn]
  by_cases hi : i < l.length
  · have h1 : ¬ (i + 1 < 1) := by omega
    have : List.range 1 = [0] := rfl
    simp only [List.ofFnNthVal, hi, dif_pos, this, List.map_cons, List.map_nil, h1,
      if_false, optSum, List.foldr_cons, List.foldr_nil]
    have hidx : i + 1 - 1 + 0 = i := by omega
    rw [hidx, List.getD_eq_getElem _ _ hi, List.getElem?_eq_getElem hi]
    cases l[i] with
    | none => rfl
    | some v =>
        simp [Option.map₂, add_zero]
  · simp [List.ofFnNthVal, hi, List.getElem?_eq_none (by omega : l.length ≤ i)]

/-! ## C5: the percentage-of-normal output formula -/

/-- C5: for every valid calibration window, `percentage_of_normal` output
at index `i` equals the scaled sum at `i` divided by the calendar-month
average for month `i mod 12` — the mean, ignoring missing values, of that
calendar month's calibration-period scaled sums — and is a missing marker
whenever that divisor is missing or non-positive. -/
theorem claim5_pon_output_formula (vals : List (Option ℝ)) (k : ℕ) (dsy c0 c1 : ℤ)
    (h1 : dsy ≤ c0) (h2 : c0 ≤ c1) (h3 : (c1 - c0 + 1) * 12 ≤ (vals.length : ℤ)) :
    match percentage_of_normal vals k dsy c0 c1 with
    | .error _ => False
    | .ok out => ∀ i, i < vals.length →
        out[i]? = some (
          match nanmean (monthIndexValues (calibrationSums vals k dsy c0 c1) (i % 12)) with
          | some avg =>
              if 0 < avg then ((sum_to_scale vals k).getD i none).map (fun s => s / avg)
              else none
          | none => none) := by
  have hok : percentage_of_normal vals k dsy c0 c1 =
      .ok (ponOutput vals k dsy c0 c1) := by
    unfold percentage_of_normal
    rw [if_neg (not_lt.mpr h1), if_neg (not_lt.mpr h3)]
  rw [hok]
  intro i hi
  rw [ponOutput_getElem? vals k dsy c0 c1 i hi,
    ponMonthAverage_eq_claim vals k dsy c0 c1 h1 h2 (i % 12) (Nat.mod_lt _ (by norm_num))]

/-- Witness for C5 at a concrete valid calibration window. -/
theorem claim5_witness :
    match percentage_of_normal (List.replicate 12 (none : Option ℝ)) 1 2000 2000 2000 with
    | .error _ => False
    | .ok out => ∀ i, i < (List.replicate 12 (none : Option ℝ)).length →
        out[i]? = some (
          match nanmean (monthIndexValues
              (calibrationSums (List.replicate 12 none) 1 2000 2000 2000) (i % 12)) with
          | some avg =>
              if 0 < avg then
                ((sum_to_scale (List.replicate 12 none) 1).getD i none).map
                  (fun s => s / avg)
              else none
          | none => none) :=
  claim5_pon_output_formula (List.replicate 12 none) 1 2000 2000 2000
    (by decide) (by decide) (by decide)

/-! ## C10: missing calendar-month averages never raise -/

/-- C10: once the calibration-window validation has passed,
`percentage_of_normal` never raises for any data values, and when the
calibration-period average for a calendar month is missing, every output
of that calendar month is a missing marker. -/
theorem claim10_pon_missing_average_gives_missing (vals : List (Option ℝ)) (k : ℕ)
    (dsy c0 c1 : ℤ) (h1 : dsy ≤ c0) (h3 : (c1 - c0 + 1) * 12 ≤ (vals.length : ℤ)) :
    match percentage_of_normal vals k dsy c0 c1 with
    | .error _ => False
    | .ok out => ∀ i, i < vals.length →
        ponMonthAverage vals k dsy c0 c1 (i % 12) = none → out[i]? = some none := by
  have hok : percentage_of_normal vals k dsy c0 c1 =
      .ok (ponOutput vals k dsy c0 c1) := by
    unfold percentage_of_normal
    rw [if_neg (not_lt.mpr h1), if_neg (not_lt.mpr h3)]
  rw [hok]
  intro i hi havg
  rw [ponOutput_getElem? vals k dsy c0 c1 i hi, havg]

/-- Witness for C10 at a concrete valid calibration window. -/
theorem claim10_witness :
    match percentage_of_normal (List.replicate 12 (none : Option ℝ)) 1 2000 2000 2000 with
    | .error _ => False
    | .ok out => ∀ i, i < (List.replicate 12 (none : Option ℝ)).length →
        ponMonthAverage (List.replicate 12 none) 1 2000 2000 2000 (i % 12) = none →
        out[i]? = some none :=
  claim10_pon_missing_average_gives_missing (List.replicate 12 none) 1 2000 2000 2000
    (by decide) (by decide)

/-! ## C9: the clamped range across the public drivers -/

lemma inRangeOrMissing_withinAbs {x : Option ℝ} (h : InRangeOrMissing x) :
    WithinAbsRange x := by
  rcases h with rfl | ⟨v, rfl, hlo, hhi⟩
  · exact Or.inl rfl
  · refine Or.inr ⟨v, rfl, abs_le.mpr ⟨?_, hhi⟩⟩
    have hmin : _FITTED_INDEX_VALID_MIN = -_FITTED_INDEX_VALID_MAX := by
      unfold _FITTED_INDEX_VALID_MIN _FITTED_INDEX_VALID_MAX
      norm_num
    linarith [hmin ▸ hlo]

lemma withinAbs_clipped_take (X : List (Option ℝ)) (n i : ℕ) :
    WithinAbsRange (((X.map (Option.map clipValue)).take n).getD i none) :=
  inRangeOrMissing_withinAbs (inRange_clipped_take X n i)

/-- C9 (counterexample): `percentage_of_normal` output is not clamped to
`[-3.09, 3.09]`: on twelve months of 1 followed by a month of 100, with
the single-year calibration window 2000–2000, the output at index 12 is
100. -/
theorem claim9_counterexample_pon_exceeds_range :
    match percentage_of_normal (List.replicate 12 (some (1 : ℝ)) ++ [some 100])
        1 2000 2000 2000 with
    | .error _ => False
    | .ok out => ∃ v, out[12]? = some (some v) ∧ _FITTED_INDEX_VALID_MAX < v := by
  have hok : percentage_of_normal (List.replicate 12 (some (1 : ℝ)) ++ [some 100])
      1 2000 2000 2000 =
      .ok (ponOutput (List.replicate 12 (some (1 : ℝ)) ++ [some 100]) 1 2000 2000 2000) := by
    unfold percentage_of_normal
    norm_num
  rw [hok]
  refine ⟨100, ?_, by unfold _FITTED_INDEX_VALID_MAX; norm_num⟩
  rw [ponOutput_getElem? _ _ _ _ _ 12 (by decide)]
  have havg : ponMonthAverage (List.replicate 12 (some (1 : ℝ)) ++ [some 100])
      1 2000 2000 2000 (12 % 12) = nanmean [some ((1 : ℝ) + 0)] := rfl
  have hnan : nanmean [some ((1 : ℝ) + 0)] = some 1 := by
    unfold nanmean
    norm_num [List.filterMap_cons]
  rw [havg, hnan]
  have hsum : (sum_to_scale (List.replicate 12 (some (1 : ℝ)) ++ [some 100]) 1).getD
      12 none = some 100 := by
    rw [sum_to_scale_one]
    rfl
  rw [hsum]
  norm_num

/-- C9 (amended): every non-missing value returned by the fitted drivers
`spi_gamma`, `spi_pearson`, `spei_gamma` and `spei_pearson` has magnitude
at most 3.09; `percentage_of_normal` output is an unclamped ratio and can
exceed this range. -/
theorem claim9_amended_fitted_drivers_within_range :
    (∀ precips k i, WithinAbsRange ((spi_gamma precips k).getD i none)) ∧
    (∀ precips k dsy c0 c1 i,
      WithinAbsRange ((spi_pearson precips k dsy c0 c1).getD i none)) ∧
    (∀ thw k precips petArg tempsArg dsyArg latArg,
      match spei_gamma thw k precips petArg tempsArg dsyArg latArg with
      | .error _ => True
      | .ok out => ∀ i, WithinAbsRange (out.getD i none)) ∧
    (∀ thw k dsy precips petArg tempsArg latArg c0 c1,
      match spei_pearson thw k dsy precips petArg tempsArg latArg c0 c1 with
      | .error _ => True
      | .ok out => ∀ i, WithinAbsRange (out.getD i none)) := by
  refine ⟨?_, ?_, ?_, ?_⟩
  · intro precips k i
    exact withinAbs_clipped_take _ _ _
  · intro precips k dsy c0 c1 i
    exact withinAbs_clipped_take _ _ _
  · intro thw k precips petArg tempsArg dsyArg latArg
    unfold spei_gamma
    split
    · trivial
    · rename_i out heq
      split at heq
      · simp at heq
      · simp at heq
      · split at heq
        · simp at heq
        · cases heq
          intro i
          exact withinAbs_clipped_take _ _ _
  · intro thw k dsy precips petArg tempsArg latArg c0 c1
    unfold spei_pearson
    split
    · trivial
    · rename_i out heq
      split at heq
      · simp at heq
      · simp at heq
      · split at heq
        · simp at heq
        · cases heq
          intro i
          exact withinAbs_clipped_take _ _ _

end Indices
